import Mathlib

/-!
Shallow embedding of `src/datahead/collector.py` (the Datahead collector):
host announcement handling (`_postResource`, `_getResource`), host record
creation (`_createHost`, `getInvariantName`), the deferred Observe
registration attempt (`_startObserve`) and the notification consumer
(`_observeTemp`).  The soscoap protocol engine is an external collaborator;
its enumerations and message/option records are modelled abstractly, and
Python's `random.randint` is modelled as a seeded function whose result is
guaranteed to lie in the requested inclusive range.
-/

namespace Datahead

/-- soscoap `MessageType` values used by the collector. -/
inductive MessageType
  | CON
  | NON
  | ACK
  | RST
deriving DecidableEq

/-- soscoap `CodeClass` values used by the collector. -/
inductive CodeClass
  | Request
  | Success
  | ClientError
  | ServerError
deriving DecidableEq

/-- soscoap request codes used by the collector. -/
inductive RequestCode
  | GET
  | POST
deriving DecidableEq

/-- Response codes drawn from soscoap's `SuccessResponseCode`,
`ClientResponseCode` and `ServerResponseCode` enumerations. -/
inductive ResponseCode
  | Created
  | NotFound
  | InternalServerError
deriving DecidableEq

/-- soscoap CoAP option types used by the collector. -/
inductive OptionType
  | UriPath
  | Observe
deriving DecidableEq

/-- The value carried by a CoAP option: a path segment string or a number. -/
inductive OptionValue
  | str : String → OptionValue
  | num : Nat → OptionValue
deriving DecidableEq

/-- soscoap `CoapOption`: an option type together with its value. -/
structure CoapOption where
  optType : OptionType
  value : OptionValue
deriving DecidableEq

/-- Modelled from the spec: `datahead/models.py` (the `Host` class imported by
`collector.py`) is not in the source tree.  The spec's data model gives a Host
two fields: `address`, the device's network endpoint identity, and `name`, a
display label derived from the address.  Plain record; construction is total. -/
structure Host where
  address : String
  name : String
deriving DecidableEq

/-- An inbound request resource as the soscoap server hands it to the
callbacks: a path, a source address tuple (host part, port), and the result
status fields the handler may fill in (`none` = left at default). -/
structure Resource where
  path : String
  sourceAddress : String × Nat
  resultClass : Option CodeClass
  resultCode : Option ResponseCode
deriving DecidableEq

/-- A `threading.Timer(delay, self._startObserve, [addr]).start()` call
recorded as data: the fixed delay and the destination address tuple. -/
structure ScheduledCall where
  delay : Nat
  dest : String × Nat
deriving DecidableEq

/-- An inbound Observe notification as consumed by `_observeTemp`: numeric
code class and detail, and the string rendering of `typedPayload()`. -/
structure NotificationMessage where
  codeClass : Nat
  codeDetail : Nat
  typedPayload : String
deriving DecidableEq

/-- The outbound CoAP message built by `_startObserve`. -/
structure CoapMessage where
  dest : String × Nat
  messageType : MessageType
  codeClass : CodeClass
  codeDetail : RequestCode
  messageId : Nat
  options : List CoapOption
  tokenLength : Nat
  token : List Nat
deriving DecidableEq

/-- Python's `str.split(sep)` for a one-character separator, on character
lists: splits on every occurrence, keeps empty segments, and always returns a
non-empty list (`[] ↦ [[]]`). -/
def splitCharsOn (sep : Char) : List Char → List (List Char)
  | [] => [[]]
  | c :: cs =>
    if c = sep then [] :: splitCharsOn sep cs
    else
      match splitCharsOn sep cs with
      | [] => [[c]]
      | seg :: rest => (c :: seg) :: rest

/-- Python's `s.split(sep)` on strings, via `splitCharsOn`. -/
def pySplit (s : String) (sep : Char) : List String :=
  (splitCharsOn sep s.toList).map String.mk

/-- `getInvariantName(host)`: `'mote-{0}'.format(host.address.split(':')[-1])`.
Python's split always yields a non-empty list, so `[-1]` is the last element;
`getLastD ""` agrees with it on every non-empty list. -/
def getInvariantName (host : Host) : String :=
  let tail := (pySplit host.address ':').getLastD ""
  "mote-" ++ tail

/-- `_observeTemp(message)`: formats
`'Response code: {0}.{1}{2}; value {3}'` where `{1}` is `'0'` exactly when
`codeDetail < 10`, and returns the logged line. -/
def observeTemp (message : NotificationMessage) : String :=
  let pad := if message.codeDetail < 10 then "0" else ""
  "Response code: " ++ toString message.codeClass ++ "." ++ pad ++
    toString message.codeDetail ++ "; value " ++ message.typedPayload

/-- The status-and-value display text as the spec words it: the class, a dot,
the detail zero-padded to two digits, then `; value ` and the payload.
Written from the spec's words, to be compared with `observeTemp`. -/
def specNotificationText (m : NotificationMessage) : String :=
  toString m.codeClass ++ "." ++
    (if m.codeDetail < 10 then "0" ++ toString m.codeDetail
     else toString m.codeDetail) ++
    "; value " ++ m.typedPayload

/-- Python `random.randint(lo, hi)` (inclusive on both ends), modelled as a
seeded function: the seed stands for the hidden RNG state and the result
always lies in `[lo, hi]`. -/
def randint (lo hi seed : Nat) : Nat := lo + seed % (hi + 1 - lo)

/-- The RNG states consumed by one `_startObserve` body, in draw order:
message id, then the two token bytes. -/
structure Rng where
  midSeed : Nat
  tok0Seed : Nat
  tok1Seed : Nat

/-- soscoap `CoapClient(sourcePort=..., dest=...)` together with the response
callback registered via `registerForResponse`. -/
structure CoapClient where
  sourcePort : Nat
  dest : String × Nat
  responseCallback : NotificationMessage → String

/-- The mutable state of a `ValueCollector`: its source port, the lazily
created shared client, and the host registry list. -/
structure CollectorState where
  sourcePort : Nat
  coapClient : Option CoapClient
  hosts : List Host

/-- `ValueCollector.__init__(sourcePort)`: no client yet, empty registry. -/
def initCollector (sourcePort : Nat) : CollectorState :=
  { sourcePort := sourcePort, coapClient := none, hosts := [] }

/-- The registry lookup in `_postResource`:
`next(x for x in self._hosts if x.address == resource.sourceAddress[0])`,
with `StopIteration` mapped to `None`. -/
def findHost (hosts : List Host) (address : String) : Option Host :=
  hosts.find? (fun x => x.address == address)

/-- `_createHost(resource)`: builds `Host()`, sets `address` from
`resource.sourceAddress[0]`, then `name = getInvariantName(host)` (which
reads only the address; the placeholder name is never read). -/
def createHost (resource : Resource) : Host :=
  let host : Host := { address := resource.sourceAddress.1, name := "" }
  { host with name := getInvariantName host }

/-- `_createHost` always returns a freshly constructed `Host`; the
`if host:` truthiness test in `_postResource` compares it against `None`, so
the result is exposed as an `Option` that is always `some`. -/
def createHostOpt (resource : Resource) : Option Host :=
  some (createHost resource)

/-- `_postResource(resource)`: returns the updated registry, the updated
resource (result status fields), and the `Timer` calls started. -/
def postResource (hosts : List Host) (resource : Resource) :
    List Host × Resource × List ScheduledCall :=
  if resource.path == "/dh/lo" then
    match findHost hosts resource.sourceAddress.1 with
    | none =>
      match createHostOpt resource with
      | some host =>
        (hosts ++ [host],
         { resource with
             resultClass := some CodeClass.Success
             resultCode := some ResponseCode.Created },
         [{ delay := 2, dest := resource.sourceAddress }])
      | none =>
        (hosts,
         { resource with
             resultClass := some CodeClass.ServerError
             resultCode := some ResponseCode.InternalServerError },
         [])
    | some _ =>
      (hosts, resource, [{ delay := 2, dest := resource.sourceAddress }])
  else
    (hosts,
     { resource with
         resultClass := some CodeClass.ClientError
         resultCode := some ResponseCode.NotFound },
     [])

/-- `_getResource(resource)`: only logs the path; it sets no status field,
touches no state, and schedules nothing. -/
def getResource (hosts : List Host) (resource : Resource) :
    List Host × Resource × List ScheduledCall :=
  (hosts, resource, [])

/-- The outbound message construction in `_startObserve`: NON type, Request
class with GET detail, random 16-bit message id, Uri-Path options `dh` and
`tmp`, Observe option 0, and a 2-byte random token. -/
def buildObserveMessage (rng : Rng) (hostTuple : String × Nat) : CoapMessage :=
  { dest := hostTuple
    messageType := MessageType.NON
    codeClass := CodeClass.Request
    codeDetail := RequestCode.GET
    messageId := randint 0 65535 rng.midSeed
    options := [{ optType := OptionType.UriPath, value := OptionValue.str "dh" },
                { optType := OptionType.UriPath, value := OptionValue.str "tmp" },
                { optType := OptionType.Observe, value := OptionValue.num 0 }]
    tokenLength := 2
    token := [randint 0 255 rng.tok0Seed, randint 0 255 rng.tok1Seed] }

/-- `CoapClient(sourcePort=self._sourcePort, dest=hostTuple)` followed by
`registerForResponse(self._observeTemp)`. -/
def createCoapClient (sourcePort : Nat) (dest : String × Nat) : CoapClient :=
  { sourcePort := sourcePort, dest := dest, responseCallback := observeTemp }

/-- The points inside the `try` block of `_startObserve` at which an
exception may be raised: building the message, creating the client, or
sending. -/
inductive ObserveStep
  | buildMessage
  | createClient
  | send
deriving DecidableEq

/-- The `try` body of `_startObserve(hostAddrTuple)` under a failure
injection `fail` saying which steps raise.  `Except.error st` is a raised
exception, carrying the collector state at the raise point (a raise after
client creation leaves the created client in place). -/
def startObserveBody (fail : ObserveStep → Bool) (st : CollectorState)
    (rng : Rng) (hostAddrTuple : String × Nat) :
    Except CollectorState (CollectorState × CoapMessage) :=
  if fail ObserveStep.buildMessage then Except.error st
  else
    let hostTuple := (hostAddrTuple.1, hostAddrTuple.2)
    let msg := buildObserveMessage rng hostTuple
    match st.coapClient with
    | none =>
      if fail ObserveStep.createClient then Except.error st
      else
        let client := createCoapClient st.sourcePort hostTuple
        let st2 := { st with coapClient := some client }
        if fail ObserveStep.send then Except.error st2
        else Except.ok (st2, msg)
    | some _ =>
      if fail ObserveStep.send then Except.error st
      else Except.ok (st, msg)

/-- `_startObserve` including its catch-all handler: a raised exception is
caught, logged and swallowed, so the call always returns; the second
component lists the messages actually handed to `send`. -/
def startObserve (fail : ObserveStep → Bool) (st : CollectorState)
    (rng : Rng) (hostAddrTuple : String × Nat) :
    CollectorState × List CoapMessage :=
  match startObserveBody fail st rng hostAddrTuple with
  | Except.ok (st2, msg) => (st2, [msg])
  | Except.error st2 => (st2, [])

/-- Number of registry entries holding a given address. -/
def countAddress (hosts : List Host) (address : String) : Nat :=
  (hosts.filter (fun h => h.address == address)).length

/-- A fresh announcement resource used to instantiate the theorems. -/
def demoAnnounce : Resource :=
  { path := "/dh/lo", sourceAddress := ("1.2.3.4", 5683),
    resultClass := none, resultCode := none }

/-- A GET/POST resource with an unrecognized path, status at defaults. -/
def unknownGet : Resource :=
  { path := "/dh/unknown", sourceAddress := ("1.2.3.4", 5683),
    resultClass := none, resultCode := none }

/-- Concrete RNG states used to instantiate the theorems. -/
def demoRng : Rng := { midSeed := 0, tok0Seed := 0, tok1Seed := 0 }

/-- A collector state whose shared client was already created, bound to the
first destination. -/
def demoClientState : CollectorState :=
  { sourcePort := 5682,
    coapClient := some (createCoapClient 5682 ("1.2.3.4", 5683)),
    hosts := [] }

/-- The address of a created host is the source address of the announcement. -/
theorem createHost_address (r : Resource) :
    (createHost r).address = r.sourceAddress.1 := rfl

/-- If the registry holds no entry for an address, the lookup misses. -/
theorem findHost_eq_none_of_count_zero (hosts : List Host) (address : String)
    (h : countAddress hosts address = 0) : findHost hosts address = none := by
  rw [countAddress, List.length_eq_zero] at h
  rw [findHost, List.find?_eq_none]
  intro x hx
  simpa using List.filter_eq_nil_iff.mp h x hx

/-- `countAddress` distributes over registry append. -/
theorem countAddress_append (l1 l2 : List Host) (address : String) :
    countAddress (l1 ++ l2) address =
      countAddress l1 address + countAddress l2 address := by
  simp [countAddress, List.filter_append]

/-- A one-entry registry holds its own address exactly once. -/
theorem countAddress_singleton_self (h : Host) :
    countAddress [h] h.address = 1 := by
  simp [countAddress]

/-- Unfolding `_postResource` on the announcement path for an unseen
address: the host is appended, the status is success/created, and one timer
with delay 2 is started for the source address. -/
theorem postResource_new (hosts : List Host) (r : Resource)
    (hpath : r.path = "/dh/lo")
    (hnew : findHost hosts r.sourceAddress.1 = none) :
    postResource hosts r =
      (hosts ++ [createHost r],
       { r with resultClass := some CodeClass.Success,
                resultCode := some ResponseCode.Created },
       [{ delay := 2, dest := r.sourceAddress }]) := by
  simp [postResource, hpath, hnew, createHostOpt]

/-- Unfolding `_postResource` on the announcement path for a known address:
registry and resource unchanged, one timer with delay 2 started. -/
theorem postResource_found (hosts : List Host) (r : Resource) (h : Host)
    (hpath : r.path = "/dh/lo")
    (hfound : findHost hosts r.sourceAddress.1 = some h) :
    postResource hosts r =
      (hosts, r, [{ delay := 2, dest := r.sourceAddress }]) := by
  simp [postResource, hpath, hfound]

/-- Unfolding `_postResource` on an unrecognized path: registry unchanged,
client-error/not-found status, nothing scheduled. -/
theorem postResource_unknown (hosts : List Host) (r : Resource)
    (hpath : r.path ≠ "/dh/lo") :
    postResource hosts r =
      (hosts,
       { r with resultClass := some CodeClass.ClientError,
                resultCode := some ResponseCode.NotFound },
       []) := by
  have hb : (r.path == "/dh/lo") = false := by simpa using hpath
  simp [postResource, hb]

/-- C1: two (or more) announcements from the same source address leave
exactly one Host with that address in the registry: the first (on an unseen
address) appends one Host, and any further announcement from that address
finds the existing Host and leaves the registry unchanged. -/
theorem announce_dedup (hosts : List Host) (r r2 : Resource)
    (hpath : r.path = "/dh/lo") (hpath2 : r2.path = "/dh/lo")
    (haddr : r2.sourceAddress.1 = r.sourceAddress.1)
    (hnew : countAddress hosts r.sourceAddress.1 = 0) :
    countAddress (postResource hosts r).1 r.sourceAddress.1 = 1 ∧
    (postResource (postResource hosts r).1 r2).1 = (postResource hosts r).1 := by
  have hfind := findHost_eq_none_of_count_zero hosts _ hnew
  have h1 := postResource_new hosts r hpath hfind
  have h1fst : (postResource hosts r).1 = hosts ++ [createHost r] := by rw [h1]
  have hfound : findHost (hosts ++ [createHost r]) r2.sourceAddress.1 =
      some (createHost r) := by
    rw [haddr, findHost, List.find?_append]
    have hn : List.find? (fun x => x.address == r.sourceAddress.1) hosts = none := hfind
    rw [hn]
    simp [List.find?, createHost_address]
  constructor
  · rw [h1fst, countAddress_append, hnew]
    have := countAddress_singleton_self (createHost r)
    rw [createHost_address] at this
    rw [this]
  · rw [h1fst, postResource_found (hosts ++ [createHost r]) r2 (createHost r) hpath2 hfound]

/-- Witness for C1 at a concrete announcement on the empty registry. -/
theorem announce_dedup_witness :
    countAddress (postResource [] demoAnnounce).1 demoAnnounce.sourceAddress.1 = 1 ∧
    (postResource (postResource [] demoAnnounce).1 demoAnnounce).1 =
      (postResource [] demoAnnounce).1 :=
  announce_dedup [] demoAnnounce demoAnnounce rfl rfl rfl rfl

/-- C2: an announcement from an unseen source address appends exactly one
Host, sets resultClass to Success and resultCode to Created, and starts
exactly one deferred subscription timer for the source address with delay 2,
which is positive (it does not fire immediately). -/
theorem announce_new_host (hosts : List Host) (r : Resource)
    (hpath : r.path = "/dh/lo")
    (hnew : findHost hosts r.sourceAddress.1 = none) :
    (postResource hosts r).1 = hosts ++ [createHost r] ∧
    (postResource hosts r).2.1.resultClass = some CodeClass.Success ∧
    (postResource hosts r).2.1.resultCode = some ResponseCode.Created ∧
    (postResource hosts r).2.2 = [{ delay := 2, dest := r.sourceAddress }] ∧
    (∀ c ∈ (postResource hosts r).2.2, 0 < c.delay) := by
  rw [postResource_new hosts r hpath hnew]
  refine ⟨rfl, rfl, rfl, rfl, ?_⟩
  intro c hc
  simp only [List.mem_singleton] at hc
  rw [hc]
  exact Nat.succ_pos 1

/-- Witness for C2 at a concrete announcement on the empty registry. -/
theorem announce_new_host_witness :
    demoAnnounce.path = "/dh/lo" ∧
    (postResource [] demoAnnounce).1 = [] ++ [createHost demoAnnounce] ∧
    (postResource [] demoAnnounce).2.1.resultClass = some CodeClass.Success ∧
    (postResource [] demoAnnounce).2.1.resultCode = some ResponseCode.Created ∧
    (postResource [] demoAnnounce).2.2 =
      [{ delay := 2, dest := demoAnnounce.sourceAddress }] :=
  ⟨rfl, (announce_new_host [] demoAnnounce rfl rfl).1,
   (announce_new_host [] demoAnnounce rfl rfl).2.1,
   (announce_new_host [] demoAnnounce rfl rfl).2.2.1,
   (announce_new_host [] demoAnnounce rfl rfl).2.2.2.1⟩

/-- C3: an announcement from a known source address leaves the resource
(and so its default status fields) untouched, leaves the registry unchanged,
and still starts exactly one deferred subscription timer for the source
address (re-arm on every announcement). -/
theorem announce_existing_host (hosts : List Host) (r : Resource) (h : Host)
    (hpath : r.path = "/dh/lo")
    (hfound : findHost hosts r.sourceAddress.1 = some h) :
    (postResource hosts r).1 = hosts ∧
    (postResource hosts r).2.1 = r ∧
    (postResource hosts r).2.2 = [{ delay := 2, dest := r.sourceAddress }] := by
  rw [postResource_found hosts r h hpath hfound]
  exact ⟨rfl, rfl, rfl⟩

/-- Witness for C3: re-announcing on a registry already holding the host. -/
theorem announce_existing_host_witness :
    (postResource [createHost demoAnnounce] demoAnnounce).1 =
      [createHost demoAnnounce] ∧
    (postResource [createHost demoAnnounce] demoAnnounce).2.1 = demoAnnounce ∧
    (postResource [createHost demoAnnounce] demoAnnounce).2.2 =
      [{ delay := 2, dest := demoAnnounce.sourceAddress }] :=
  announce_existing_host [createHost demoAnnounce] demoAnnounce
    (createHost demoAnnounce) rfl rfl

/-- C4 counterexample: the claim says a GET to an unrecognized path sets
resultClass = ClientError and resultCode = NotFound, but `_getResource` only
logs: at the concrete resource `unknownGet` the GET handler leaves both
status fields at `none`. -/
theorem get_unknown_path_no_notfound :
    ¬((getResource [] unknownGet).2.1.resultClass = some CodeClass.ClientError ∧
      (getResource [] unknownGet).2.1.resultCode = some ResponseCode.NotFound) := by
  decide

/-- C4 (amended): a POST to an unrecognized path sets client-error/not-found
and performs no registry mutation and no scheduling; the GET handler never
mutates the registry and never schedules, but sets no status at all — a GET
to an unrecognized path leaves the response at its defaults. -/
theorem unknown_path_handling (hosts : List Host) (r : Resource)
    (hpath : r.path ≠ "/dh/lo") :
    (postResource hosts r).1 = hosts ∧
    (postResource hosts r).2.1.resultClass = some CodeClass.ClientError ∧
    (postResource hosts r).2.1.resultCode = some ResponseCode.NotFound ∧
    (postResource hosts r).2.2 = [] ∧
    getResource hosts r = (hosts, r, []) := by
  rw [postResource_unknown hosts r hpath]
  exact ⟨rfl, rfl, rfl, rfl, rfl⟩

/-- Witness for the amended C4 at the concrete unrecognized-path resource. -/
theorem unknown_path_handling_witness :
    (postResource [] unknownGet).1 = [] ∧
    (postResource [] unknownGet).2.1.resultClass = some CodeClass.ClientError ∧
    (postResource [] unknownGet).2.1.resultCode = some ResponseCode.NotFound ∧
    (postResource [] unknownGet).2.2 = [] ∧
    getResource [] unknownGet = ([], unknownGet, []) :=
  unknown_path_handling [] unknownGet (by decide)

/-- C5: the notification consumer logs the status as the class, a dot, the
detail zero-padded to two digits, then `; value ` and the typed payload,
after the fixed `Response code: ` logging text; in particular for class 2,
detail 5 and payload 23.5 the recorded status text is `2.05; value 23.5`. -/
theorem observeTemp_format :
    (∀ m : NotificationMessage,
      observeTemp m = "Response code: " ++ specNotificationText m) ∧
    observeTemp { codeClass := 2, codeDetail := 5, typedPayload := "23.5" } =
      "Response code: " ++ "2.05; value 23.5" := by
  constructor
  · intro m
    unfold observeTemp specNotificationText
    by_cases h : m.codeDetail < 10
    · simp [h, String.append_assoc]
      have hdot : ("." : String) ++ "0" = ".0" := by decide
      rw [← String.append_assoc "." "0", hdot]
    · simp [h, String.append_assoc]
  · decide

/-- C6: every exception raised inside a subscription attempt is caught at
the attempt boundary: `_startObserve` always returns, under any failure
injection it never changes the host registry, and when the body raises it
sends no message and hands back the state at the raise point. -/
theorem startObserve_contained (fail : ObserveStep → Bool) (st : CollectorState)
    (rng : Rng) (addr : String × Nat) :
    (startObserve fail st rng addr).1.hosts = st.hosts ∧
    (∀ st2, startObserveBody fail st rng addr = Except.error st2 →
      startObserve fail st rng addr = (st2, [])) := by
  constructor
  · unfold startObserve startObserveBody
    cases hfb : fail ObserveStep.buildMessage <;>
      cases hcl : st.coapClient <;>
      cases hfc : fail ObserveStep.createClient <;>
      cases hfs : fail ObserveStep.send <;>
      simp [hfb, hcl, hfc, hfs]
  · intro st2 hb
    unfold startObserve
    rw [hb]

/-- Witness for C6: with every step failing, the attempt on a fresh
collector state returns that state unchanged and sends nothing. -/
theorem startObserve_contained_witness :
    (startObserve (fun _ => true) (initCollector 5682) demoRng
        ("1.2.3.4", 5683)).1.hosts = (initCollector 5682).hosts ∧
    startObserve (fun _ => true) (initCollector 5682) demoRng
        ("1.2.3.4", 5683) = (initCollector 5682, []) :=
  ⟨(startObserve_contained (fun _ => true) (initCollector 5682) demoRng
      ("1.2.3.4", 5683)).1,
   (startObserve_contained (fun _ => true) (initCollector 5682) demoRng
      ("1.2.3.4", 5683)).2 (initCollector 5682) rfl⟩

/-- C7: the derived host name depends only on the host's address (so it is
deterministic and stable under recomputation), and for address
`10.0.0.5:5683` it is the fixed tag `mote-` followed by the last
colon-delimited segment `5683`. -/
theorem getInvariantName_pure :
    (∀ h1 h2 : Host, h1.address = h2.address →
      getInvariantName h1 = getInvariantName h2) ∧
    (∀ h : Host, h.address = "10.0.0.5:5683" →
      getInvariantName h = "mote-" ++ "5683") := by
  constructor
  · intro h1 h2 heq
    unfold getInvariantName
    rw [heq]
  · intro h heq
    unfold getInvariantName
    rw [heq]
    decide

/-- Witness for C7 at the concrete address, with two distinct name fields. -/
theorem getInvariantName_pure_witness :
    getInvariantName { address := "10.0.0.5:5683", name := "x" } =
      getInvariantName { address := "10.0.0.5:5683", name := "y" } ∧
    getInvariantName { address := "10.0.0.5:5683", name := "x" } =
      "mote-" ++ "5683" :=
  ⟨getInvariantName_pure.1 { address := "10.0.0.5:5683", name := "x" }
      { address := "10.0.0.5:5683", name := "y" } rfl,
   getInvariantName_pure.2 { address := "10.0.0.5:5683", name := "x" } rfl⟩

/-- C8: every constructed subscription request is non-confirmable, a read
(Request class, GET detail), carries a message id in 0..65535, exactly the
two Uri-Path segments `dh` and `tmp`, an Observe option with value 0, and a
2-byte token whose bytes lie in 0..255. -/
theorem buildObserveMessage_shape (rng : Rng) (addr : String × Nat) :
    (buildObserveMessage rng addr).messageType = MessageType.NON ∧
    (buildObserveMessage rng addr).codeClass = CodeClass.Request ∧
    (buildObserveMessage rng addr).codeDetail = RequestCode.GET ∧
    (buildObserveMessage rng addr).messageId ≤ 65535 ∧
    ((buildObserveMessage rng addr).options.filter
        (fun o => o.optType == OptionType.UriPath)).map CoapOption.value =
      [OptionValue.str "dh", OptionValue.str "tmp"] ∧
    (buildObserveMessage rng addr).options.filter
        (fun o => o.optType == OptionType.Observe) =
      [{ optType := OptionType.Observe, value := OptionValue.num 0 }] ∧
    (buildObserveMessage rng addr).tokenLength = 2 ∧
    (∃ b0 b1, (buildObserveMessage rng addr).token = [b0, b1] ∧
      b0 ≤ 255 ∧ b1 ≤ 255) := by
  refine ⟨rfl, rfl, rfl, ?_, rfl, rfl, rfl, ?_⟩
  · show randint 0 65535 rng.midSeed ≤ 65535
    unfold randint
    omega
  · refine ⟨randint 0 255 rng.tok0Seed, randint 0 255 rng.tok1Seed, rfl, ?_, ?_⟩ <;>
      · unfold randint
        omega

/-- C9: the shared client is `none` after construction, is created exactly
once by the first completed attempt — bound to the triggering destination,
with its response callback wired to `observeTemp` — and any attempt that
already finds a client leaves that same client in place. -/
theorem coapClient_lazy_singleton (p : Nat) (fail : ObserveStep → Bool)
    (st : CollectorState) (rng : Rng) (addr : String × Nat) :
    (initCollector p).coapClient = none ∧
    (st.coapClient = none → fail ObserveStep.buildMessage = false →
      fail ObserveStep.createClient = false →
      (startObserve fail st rng addr).1.coapClient =
        some (createCoapClient st.sourcePort (addr.1, addr.2)) ∧
      (createCoapClient st.sourcePort (addr.1, addr.2)).responseCallback =
        observeTemp ∧
      (createCoapClient st.sourcePort (addr.1, addr.2)).dest = (addr.1, addr.2)) ∧
    (∀ c, st.coapClient = some c →
      (startObserve fail st rng addr).1.coapClient = some c) := by
  refine ⟨rfl, ?_, ?_⟩
  · intro hnone hfb hfc
    refine ⟨?_, rfl, rfl⟩
    unfold startObserve startObserveBody
    cases hfs : fail ObserveStep.send <;> simp [hfb, hnone, hfc, hfs]
  · intro c hc
    unfold startObserve startObserveBody
    cases hfb : fail ObserveStep.buildMessage <;>
      cases hfs : fail ObserveStep.send <;>
      simp [hfb, hc, hfs]

/-- Witness for C9: no client after construction; the first completed
attempt creates the client for its destination; a later attempt toward a
different destination leaves the existing client untouched. -/
theorem coapClient_lazy_singleton_witness :
    (initCollector 5682).coapClient = none ∧
    (startObserve (fun _ => false) (initCollector 5682) demoRng
        ("1.2.3.4", 5683)).1.coapClient =
      some (createCoapClient 5682 ("1.2.3.4", 5683)) ∧
    (startObserve (fun _ => false) demoClientState demoRng
        ("5.6.7.8", 5683)).1.coapClient =
      some (createCoapClient 5682 ("1.2.3.4", 5683)) :=
  ⟨(coapClient_lazy_singleton 5682 (fun _ => false) (initCollector 5682)
      demoRng ("1.2.3.4", 5683)).1,
   ((coapClient_lazy_singleton 5682 (fun _ => false) (initCollector 5682)
      demoRng ("1.2.3.4", 5683)).2.1 rfl rfl rfl).1,
   (coapClient_lazy_singleton 5682 (fun _ => false) demoClientState
      demoRng ("5.6.7.8", 5683)).2.2
     (createCoapClient 5682 ("1.2.3.4", 5683)) rfl⟩

/-- C10: host construction is total (`_createHost` never returns `None`), so
an announcement from an unseen address always takes the success/created
branch, and no input at all — whatever path or registry, on a resource whose
status is still at its default — can reach the server-error branch. -/
theorem createHost_total (hosts : List Host) (r : Resource)
    (hpath : r.path = "/dh/lo")
    (hnew : findHost hosts r.sourceAddress.1 = none) :
    createHostOpt r = some (createHost r) ∧
    (postResource hosts r).2.1.resultClass = some CodeClass.Success ∧
    (postResource hosts r).2.1.resultCode = some ResponseCode.Created ∧
    (∀ (hosts2 : List Host) (r2 : Resource), r2.resultClass = none →
      (postResource hosts2 r2).2.1.resultClass ≠ some CodeClass.ServerError) := by
  refine ⟨rfl, ?_, ?_, ?_⟩
  · rw [postResource_new hosts r hpath hnew]
  · rw [postResource_new hosts r hpath hnew]
  · intro hosts2 r2 hdef
    by_cases hp : r2.path = "/dh/lo"
    · cases hfind : findHost hosts2 r2.sourceAddress.1 with
      | none =>
        rw [postResource_new hosts2 r2 hp hfind]
        simp
      | some h =>
        rw [postResource_found hosts2 r2 h hp hfind]
        simp [hdef]
    · rw [postResource_unknown hosts2 r2 hp]
      simp

/-- Witness for C10 at a concrete announcement on the empty registry. -/
theorem createHost_total_witness :
    createHostOpt demoAnnounce = some (createHost demoAnnounce) ∧
    (postResource [] demoAnnounce).2.1.resultClass = some CodeClass.Success ∧
    (postResource [] demoAnnounce).2.1.resultCode = some ResponseCode.Created :=
  ⟨(createHost_total [] demoAnnounce rfl rfl).1,
   (createHost_total [] demoAnnounce rfl rfl).2.1,
   (createHost_total [] demoAnnounce rfl rfl).2.2.1⟩

end Datahead
